import Mathlib

/-!
Shallow embedding of the `ros2_aruco` package (three Python source files:
`aruco_node.py`, `charuco_generate_board.py`,
`aruco_generate_custom_dictionary.py`).

The node delegates all vision work to OpenCV (`cv2.aruco`) and to the
`transformations` helper module; those external calls are modelled as opaque
inputs supplied to each callback (an `Extern` record for the per-frame library
outputs, a `CvEnv` record for the `cv2.aruco` attribute table).  Scalars that
the Python code merely copies (translation components, quaternion components,
intrinsics) are modelled as `Rat`; no arithmetic is ever performed on them by
the code under verification, only copying, so the choice of scalar field is
immaterial.  Python exceptions are modelled explicitly: a callback result
carries an `error : Option PyError` field (`some e` means the exception `e`
propagates out of the Python callback), and the node constructor returns an
`Except PyError NodeState`.
-/

namespace Ros2Aruco

/-- A 3-vector of scalars, the shape of `tvecs[i][0]` / `rvecs[i][0]` and of
the 3x1 board pose vectors returned by the library. -/
structure Vec3 where
  x : Rat
  y : Rat
  z : Rat
deriving DecidableEq, Repr, Inhabited

/-- `geometry_msgs/Point`. -/
structure Point where
  x : Rat
  y : Rat
  z : Rat
deriving DecidableEq, Repr, Inhabited

/-- `geometry_msgs/Quaternion`. -/
structure Quat where
  x : Rat
  y : Rat
  z : Rat
  w : Rat
deriving DecidableEq, Repr, Inhabited

/-- `geometry_msgs/Pose`. -/
structure Pose where
  position : Point
  orientation : Quat
deriving DecidableEq, Repr, Inhabited

/-- `std_msgs/Header`: frame id and stamp (stamps modelled as `Nat`). -/
structure Header where
  frame_id : String
  stamp : Nat
deriving DecidableEq, Repr

/-- `geometry_msgs/PoseArray`. -/
structure PoseArray where
  header : Header
  poses : List Pose
deriving DecidableEq, Repr

/-- `ros2_aruco_interfaces/ArucoMarkers`. -/
structure ArucoMarkers where
  header : Header
  marker_ids : List Int
  poses : List Pose
deriving DecidableEq, Repr

/-- `geometry_msgs/TransformStamped` (the fields the node assigns). -/
structure TransformStamped where
  header : Header
  child_frame_id : String
  translation : Point
  rotation : Quat
deriving DecidableEq, Repr

/-- `ros2_aruco_interfaces/ChArUcoBoard` message (the node assigns its pose). -/
structure ChArUcoBoard where
  pose : Pose
deriving DecidableEq, Repr

/-- `sensor_msgs/CameraInfo`: the fields the node reads (`header.frame_id`,
the 3x3 intrinsic matrix `k` in row-major order, the distortion vector `d`).
The ROS message type fixes `k` to 9 entries. -/
structure CameraInfo where
  header : Header
  k : List Rat
  d : List Rat
deriving DecidableEq, Repr

/-- `np.reshape(np.array(k), (3, 3))` for the 9-entry intrinsics vector. -/
def reshape3x3 (k : List Rat) : List (List Rat) :=
  [k.take 3, (k.drop 3).take 3, ((k.drop 3).drop 3).take 3]

/-- A `cv2.aruco` dictionary object, as produced by `Dictionary_get` (from a
predefined integer constant) or `Dictionary_create` (from the three positional
arguments the caller passes). -/
inductive ArucoDict where
  | predefined (id : Int)
  | custom (a b c : Int)
deriving DecidableEq, Repr

/-- A `cv2.aruco` module attribute: either an `int` constant (the type of
`cv2.aruco.DICT_5X5_100`) or an attribute of some other type. -/
inductive CvAttr where
  | intConst (v : Int)
  | nonInt
deriving DecidableEq, Repr

/-- The `cv2.aruco` attribute table: models `getattr` / `dir(cv2.aruco)`. -/
structure CvEnv where
  attrs : List (String × CvAttr)
deriving Repr

/-- `cv2.aruco.__getattribute__ name` (`none` models `AttributeError`). -/
def CvEnv.getattr (env : CvEnv) (name : String) : Option CvAttr :=
  (env.attrs.find? (fun p => p.fst == name)).map Prod.snd

/-- Python `s.startswith(p)`, on the underlying character lists. -/
def pyStartsWith (s p : String) : Bool :=
  p.data.isPrefixOf s.data

/-- `[s for s in dir(cv2.aruco) if s.startswith("DICT")]`. -/
def CvEnv.dictOptions (env : CvEnv) : List String :=
  (env.attrs.map Prod.fst).filter (fun s => pyStartsWith s "DICT")

/-- A Python exception escaping the modelled code. -/
inductive PyError where
  | attributeError (name : String)
  | unboundLocalError (name : String)
  | valueError (msg : String)
  | cvError (msg : String)
deriving DecidableEq, Repr

/-- The board object built by `cv2.aruco.CharucoBoard_create`, recording the
five arguments the caller passes, in order. -/
structure CharucoBoard where
  squaresX : Int
  squaresY : Int
  squareLength : Rat
  markerLength : Rat
  dictionary : ArucoDict
deriving DecidableEq, Repr

/-- `cv2.aruco.CharucoBoard_create`. -/
def CharucoBoard_create (squaresX squaresY : Int) (squareLength markerLength : Rat)
    (dictionary : ArucoDict) : CharucoBoard :=
  ⟨squaresX, squaresY, squareLength, markerLength, dictionary⟩

/-- The effective values of the ROS parameters declared at `aruco_node.py`
lines 52-67 (declared default or override).  `camera_frame` is declared with
default `None`, but `get_parameter_value().string_value` always yields a
`str` (the empty string when unset), so it is a `String` here, `""` meaning
unset.  The two topic-name parameters only choose subscription topics and are
not modelled. -/
structure Params where
  marker_size : Rat
  aruco_dictionary_id : String
  camera_frame : String
  dictionary_bits : Int
  dictionary_size : Int
  dictionary_seed : Int
  do_corner_refinement : Bool
  publish_tf : Bool
  publish_charuco_pose : Bool
  charuco_square_x : Int
  charuco_square_y : Int
  charuco_square_length : Rat
  corner_refinement_method : String
deriving DecidableEq, Repr

/-- `self.get_parameter(name).get_parameter_value().integer_value`. -/
def Params.getInt (p : Params) : String → Int
  | "dictionary_bits" => p.dictionary_bits
  | "dictionary_size" => p.dictionary_size
  | "dictionary_seed" => p.dictionary_seed
  | "charuco_square_x" => p.charuco_square_x
  | "charuco_square_y" => p.charuco_square_y
  | _ => 0

/-- `self.get_parameter(name).get_parameter_value().double_value`. -/
def Params.getDouble (p : Params) : String → Rat
  | "marker_size" => p.marker_size
  | "charuco_square_length" => p.charuco_square_length
  | _ => 0

/-- `self.get_parameter(name).get_parameter_value().string_value`. -/
def Params.getString (p : Params) : String → String
  | "aruco_dictionary_id" => p.aruco_dictionary_id
  | "camera_frame" => p.camera_frame
  | "corner_refinement_method" => p.corner_refinement_method
  | _ => ""

/-- `self.get_parameter(name).get_parameter_value().bool_value`. -/
def Params.getBool (p : Params) : String → Bool
  | "do_corner_refinement" => p.do_corner_refinement
  | "publish_tf" => p.publish_tf
  | "publish_charuco_pose" => p.publish_charuco_pose
  | _ => false

/-- The node's instance fields after `ArucoNode.__init__`.  `info_sub_alive`
models whether the `CameraInfo` subscription still exists
(`destroy_subscription` at line 176 sets it to false, after which the runtime
delivers no further `CameraInfo` messages). -/
structure NodeState where
  marker_size : Rat
  camera_frame : String
  aruco_dictionary : ArucoDict
  cornerRefinementMethod : Int
  publish_tf : Bool
  publish_charuco_pose : Bool
  charuco_square_x : Int
  charuco_square_y : Int
  charuco_square_length : Rat
  info_msg : Option CameraInfo
  intrinsic_mat : Option (List (List Rat))
  distortion : Option (List Rat)
  info_sub_alive : Bool
deriving DecidableEq, Repr

/-- Result of running `ArucoNode.__init__`: the log lines emitted and either
the constructed node state or the Python exception escaping the constructor. -/
structure InitResult where
  logs : List String
  result : Except PyError NodeState
deriving Repr

/-- `['CORNER_REFINE_NONE', 'CORNER_REFINE_SUBPIX', 'CORNER_REFINE_CONTOUR',
'CORNER_REFINE_APRILTAG']` (lines 130-135). -/
def corner_refinement_methods : List String :=
  ["CORNER_REFINE_NONE", "CORNER_REFINE_SUBPIX",
   "CORNER_REFINE_CONTOUR", "CORNER_REFINE_APRILTAG"]

/-- Lines 125-169 of `__init__`, run once a dictionary object is in hand:
corner refinement (`list.index` raises `ValueError` when the configured method
is not in the list), the `publish_tf` / charuco configuration, and the initial
`None` camera fields.  Line 159 reads the `"charuco_square_x"` parameter for
the `self.charuco_square_y` field — transcribed as in the source. -/
def initRest (p : Params) (dict : ArucoDict) : Except PyError NodeState := do
  let cornerRefinementMethod : Int ←
    if p.getBool "do_corner_refinement" then
      match corner_refinement_methods.findIdx?
          (fun m => m == p.getString "corner_refinement_method") with
      | some i => pure (Int.ofNat i)
      | none => throw (PyError.valueError "list.index(x): x not in list")
    else
      pure 0
  pure
    { marker_size := p.getDouble "marker_size"
      camera_frame := p.getString "camera_frame"
      aruco_dictionary := dict
      cornerRefinementMethod := cornerRefinementMethod
      publish_tf := p.getBool "publish_tf"
      publish_charuco_pose := p.getBool "publish_charuco_pose"
      charuco_square_x := p.getInt "charuco_square_x"
      charuco_square_y := p.getInt "charuco_square_x"
      charuco_square_length := p.getDouble "charuco_square_length"
      info_msg := none
      intrinsic_mat := none
      distortion := none
      info_sub_alive := true }

/-- `ArucoNode.__init__` (lines 48-169).  The dictionary-validation block
(lines 81-103): when the configured name is not `"CUSTOM"`, `getattr` either
yields an `int` constant (then `Dictionary_get` succeeds), or yields a
non-`int` attribute (the type check raises `AttributeError` which is caught
and logged, but `dictionary_id` stays bound to the non-`int` value and line 93
passes it to `Dictionary_get`, which the library rejects), or raises
`AttributeError` (caught and logged, but then `dictionary_id` was never bound
and line 93 raises `UnboundLocalError`). -/
def ArucoNode.init (env : CvEnv) (p : Params) : InitResult :=
  let dictionary_id_name := p.getString "aruco_dictionary_id"
  let badLogs : List String :=
    ["bad aruco_dictionary_id: " ++ dictionary_id_name,
     "valid options: " ++ String.intercalate "\n" env.dictOptions]
  if dictionary_id_name ≠ "CUSTOM" then
    match env.getattr dictionary_id_name with
    | some (CvAttr.intConst v) =>
        { logs := [], result := initRest p (ArucoDict.predefined v) }
    | some CvAttr.nonInt =>
        { logs := badLogs,
          result := throw (PyError.cvError "Dictionary_get: bad argument type") }
    | none =>
        { logs := badLogs,
          result := throw (PyError.unboundLocalError "dictionary_id") }
  else
    { logs := [],
      result := initRest p (ArucoDict.custom (p.getInt "dictionary_bits")
        (p.getInt "dictionary_size") (p.getInt "dictionary_seed")) }

/-- `ArucoNode.info_callback` (lines 171-176): caches the message, the
reshaped intrinsics and the distortion vector, then destroys the
`CameraInfo` subscription. -/
def ArucoNode.info_callback (s : NodeState) (msg : CameraInfo) : NodeState :=
  { s with
    info_msg := some msg
    intrinsic_mat := some (reshape3x3 msg.k)
    distortion := some msg.d
    info_sub_alive := false }

/-- The external vision-library behavior for one image frame: what
`cv2.aruco.detectMarkers` / `estimatePoseSingleMarkers` /
`interpolateCornersCharuco` / `estimatePoseCharucoBoard` return for this
frame, and the rotation-vector-to-quaternion conversion
`transformations.quaternion_from_matrix(eye4 with cv2.Rodrigues(rvec))`
used at lines 226-228 and 290-292.  `marker_ids = none` models
`detectMarkers` returning `None` for the ids.  `rvecs`/`tvecs` hold the
`rvecs[i][0]` / `tvecs[i][0]` entries; the library returns them with the
same length as the ids array. -/
structure Extern where
  marker_ids : Option (List Int)
  rvecs : List Vec3
  tvecs : List Vec3
  quatOfRvec : Vec3 → Quat
  charuco_n_corners : Int
  charuco_success : Bool
  charuco_rvec : Vec3
  charuco_tvec : Vec3

/-- The pose built from one marker's `tvec`/`rvec` (lines 221-233). -/
def mkPose (q : Vec3 → Quat) (rvec tvec : Vec3) : Pose :=
  { position := ⟨tvec.x, tvec.y, tvec.z⟩
    orientation := q rvec }

/-- The `TransformStamped` built for one marker (lines 240-252), with the
resolved (non-empty) camera frame `cf`. -/
def mkMarkerTransform (cf : String) (stamp : Nat) (q : Vec3 → Quat)
    (mid : Int) (rvec tvec : Vec3) : TransformStamped :=
  { header := ⟨cf, stamp⟩
    child_frame_id := "marker_" ++ toString mid
    translation := ⟨tvec.x, tvec.y, tvec.z⟩
    rotation := q rvec }

/-- The per-marker loop, lines 220-254.  It walks `marker_ids`, `rvecs` and
`tvecs` in lockstep (the library contract makes them the same length; the
fall-through case is only reached outside that contract).  When `publish_tf`
is set, `t.header.frame_id = self.camera_frame or self.info.msg.header.frame_id`
(lines 243-244) evaluates the right operand whenever `camera_frame` is falsy
(the empty string), and `self.info` is not an attribute of the node (the field
is `self.info_msg`), so an `AttributeError` is raised; the error carries the
transforms already broadcast before the raise.  On success, returns the
accumulated poses, marker ids and broadcast transforms, in order. -/
def markerLoop (ptf : Bool) (cf : String) (stamp : Nat) (q : Vec3 → Quat) :
    List Int → List Vec3 → List Vec3 →
    Except (PyError × List TransformStamped)
      (List Pose × List Int × List TransformStamped)
  | mid :: ids, rvec :: rvecs, tvec :: tvecs =>
    if ptf then
      if cf ≠ "" then
        let t := mkMarkerTransform cf stamp q mid rvec tvec
        match markerLoop ptf cf stamp q ids rvecs tvecs with
        | .ok (ps, ms, ts) => .ok (mkPose q rvec tvec :: ps, mid :: ms, t :: ts)
        | .error (e, ts) => .error (e, t :: ts)
      else
        .error (PyError.attributeError "info", [])
    else
      match markerLoop ptf cf stamp q ids rvecs tvecs with
      | .ok (ps, ms, ts) => .ok (mkPose q rvec tvec :: ps, mid :: ms, ts)
      | .error (e, ts) => .error (e, ts)
  | _, _, _ => .ok ([], [], [])

/-- The observable outcome of one `image_callback` run: log lines, the
messages published on each topic (`none` when nothing was published there),
the transforms broadcast, the board object handed to the library's
charuco functions (when any), and the Python exception escaping the
callback (when any). -/
structure CallbackOutput where
  logs : List String
  poses_published : Option PoseArray
  markers_published : Option ArucoMarkers
  board_published : Option ChArUcoBoard
  charuco_board : Option CharucoBoard
  transforms_sent : List TransformStamped
  error : Option PyError
deriving DecidableEq, Repr

/-- Lines 259-316: the optional charuco-board phase, run after the two
publishes with the publish-outcome `base` accumulated so far.  Builds the
board from the node's configured geometry, and when the library interpolates
corners and the board-pose estimate succeeds, publishes the board pose and
optionally broadcasts the board transform (whose frame-id expression has the
same `self.info.msg` attribute lookup as lines 243-244). -/
def charucoPhase (s : NodeState) (stamp : Nat) (ext : Extern)
    (base : CallbackOutput) : CallbackOutput :=
  if s.publish_charuco_pose then
    let board := CharucoBoard_create s.charuco_square_x s.charuco_square_y
      s.charuco_square_length s.marker_size s.aruco_dictionary
    let base := { base with charuco_board := some board }
    if ext.charuco_n_corners > 0 then
      if ext.charuco_success then
        let quat := ext.quatOfRvec ext.charuco_rvec
        let board_msg : ChArUcoBoard :=
          { pose := { position := ⟨ext.charuco_tvec.x, ext.charuco_tvec.y,
                        ext.charuco_tvec.z⟩
                      orientation := quat } }
        let base := { base with board_published := some board_msg }
        if s.publish_tf then
          if s.camera_frame ≠ "" then
            let t : TransformStamped :=
              { header := ⟨s.camera_frame, stamp⟩
                child_frame_id := "charuco_board"
                translation := ⟨ext.charuco_tvec.x, ext.charuco_tvec.y,
                  ext.charuco_tvec.z⟩
                rotation := quat }
            { base with transforms_sent := base.transforms_sent ++ [t] }
          else
            { base with error := some (PyError.attributeError "info") }
        else
          base
      else
        base
    else
      base
  else
    base

/-- `ArucoNode.image_callback` (lines 178-316) for an image message with
stamp `stamp`, against the library behavior `ext`.  With no cached
`CameraInfo` it warns and returns (lines 179-181).  `self.camera_frame` is
always a `str` (never Python `None`), so the `if self.camera_frame is None`
test at line 187 is never true and the outgoing headers carry
`self.camera_frame` (lines 191-192).  The callback assigns no node fields. -/
def ArucoNode.image_callback (s : NodeState) (stamp : Nat) (ext : Extern) :
    CallbackOutput :=
  match s.info_msg with
  | none =>
    { logs := ["No camera info has been received!"]
      poses_published := none
      markers_published := none
      board_published := none
      charuco_board := none
      transforms_sent := []
      error := none }
  | some _ =>
    match ext.marker_ids with
    | none =>
      { logs := []
        poses_published := none
        markers_published := none
        board_published := none
        charuco_board := none
        transforms_sent := []
        error := none }
    | some ids =>
      match markerLoop s.publish_tf s.camera_frame stamp ext.quatOfRvec
          ids ext.rvecs ext.tvecs with
      | .error (e, ts) =>
        { logs := []
          poses_published := none
          markers_published := none
          board_published := none
          charuco_board := none
          transforms_sent := ts
          error := some e }
      | .ok (ps, ms, ts) =>
        let hdr : Header := ⟨s.camera_frame, stamp⟩
        let base : CallbackOutput :=
          { logs := []
            poses_published := some { header := hdr, poses := ps }
            markers_published := some { header := hdr, marker_ids := ms, poses := ps }
            board_published := none
            charuco_board := none
            transforms_sent := ts
            error := none }
        charucoPhase s stamp ext base

/-- One runtime event delivered to the node: a `CameraInfo` message or an
image frame (with the library behavior for that frame). -/
inductive Event where
  | info (msg : CameraInfo)
  | image (stamp : Nat) (ext : Extern)

/-- Dispatch of one event.  A `CameraInfo` message reaches `info_callback`
only while its subscription exists; `image_callback` assigns no node fields,
so the state after an image event is unchanged. -/
def ArucoNode.step (s : NodeState) : Event → NodeState × Option CallbackOutput
  | .info msg =>
    (if s.info_sub_alive then ArucoNode.info_callback s msg else s, none)
  | .image stamp ext => (s, some (ArucoNode.image_callback s stamp ext))

/-- The node state after a sequence of events (the runtime serializes
callback execution, so events are dispatched one at a time). -/
def ArucoNode.run (s : NodeState) : List Event → NodeState
  | [] => s
  | e :: es => ArucoNode.run (ArucoNode.step s e).fst es

/-- Python `v or d` for an optional integer option: `argparse` yields `None`
when the option is omitted, and both `None` and `0` are falsy. -/
def pyOrInt (v : Option Int) (d : Int) : Int :=
  match v with
  | none => d
  | some n => if n = 0 then d else n

/-- The command-line arguments of `charuco_generate_board.py` after parsing
(lines 15-51); `out_x`/`out_y` are `none` when omitted. -/
structure BoardArgs where
  square_x : Int
  square_y : Int
  square_length : Rat
  marker_length : Rat
  path : String
  out_x : Option Int
  out_y : Option Int
  dictionary : String
deriving DecidableEq, Repr

/-- The observable outcome of `charuco_generate_board.main`: console lines,
the resolved output resolution (lines 52-53), the board and pixel size handed
to `board.draw` / `cv2.imwrite` (when reached), and any escaping exception. -/
structure BoardRunResult where
  printed : List String
  out_x : Int
  out_y : Int
  drawn : Option (CharucoBoard × Int × Int)
  error : Option PyError
deriving DecidableEq, Repr

/-- `charuco_generate_board.main` (lines 14-77).  `abspath` models
`os.path.abspath`; `writeOk` models the boolean `cv2.imwrite` returns.  The
`try` block catches only `AttributeError` (a missing dictionary attribute);
`Dictionary_get` on a non-`int` attribute raises a library error that
escapes. -/
def charuco_generate_board_main (env : CvEnv) (abspath : String → String)
    (writeOk : Bool) (args : BoardArgs) : BoardRunResult :=
  let out_x := pyOrInt args.out_x (300 * args.square_x)
  let out_y := pyOrInt args.out_y (300 * args.square_y)
  match env.getattr args.dictionary with
  | none =>
    { printed := ("unrecognized dictionary id: " ++ args.dictionary)
        :: "Valid options:" :: env.dictOptions
      out_x := out_x
      out_y := out_y
      drawn := none
      error := none }
  | some CvAttr.nonInt =>
    { printed := []
      out_x := out_x
      out_y := out_y
      drawn := none
      error := some (PyError.cvError "Dictionary_get: bad argument type") }
  | some (CvAttr.intConst v) =>
    let board := CharucoBoard_create args.square_x args.square_y
      args.square_length args.marker_length (ArucoDict.predefined v)
    let abs_path := abspath args.path
    { printed :=
        if !writeOk then
          ["Failed to write checkerboard to " ++ abs_path]
        else
          ["Succesfully wrote checkerboard to " ++ abs_path]
      out_x := out_x
      out_y := out_y
      drawn := some (board, out_x, out_y)
      error := none }

/-- The command-line arguments of `aruco_generate_custom_dictionary.py`
after parsing (lines 20-31). -/
structure DictArgs where
  size : Int
  num : Int
  bits : Int
  seed : Int
deriving DecidableEq, Repr

/-- The observable outcome of `aruco_generate_custom_dictionary.main`:
console lines and, per generated marker, the file name passed to
`cv2.imwrite` together with the boolean it returned. -/
structure DictRunResult where
  printed : List String
  writes : List (String × Bool)
deriving DecidableEq, Repr

/-- `"marker_{:04d}.png".format i` for a loop index `i`. -/
def markerFileName (i : Nat) : String :=
  let s := toString i
  let padded :=
    if s.length < 4 then String.mk (List.replicate (4 - s.length) '0') ++ s
    else s
  "marker_" ++ padded ++ ".png"

/-- `aruco_generate_custom_dictionary.main` (lines 19-37).  `writeOk i`
models the boolean `cv2.imwrite` returns for the `i`-th marker image; the
script discards that boolean (line 37) and prints nothing. -/
def aruco_generate_custom_dictionary_main (writeOk : Nat → Bool)
    (args : DictArgs) : DictRunResult :=
  let _dictionary := ArucoDict.custom args.num args.bits args.seed
  { printed := []
    writes := (List.range args.num.toNat).map
      (fun i => (markerFileName i, writeOk i)) }

/-! Concrete fixtures used to instantiate witnesses and counterexamples. -/

/-- A small `cv2.aruco` attribute table with two predefined dictionaries. -/
def envStd : CvEnv :=
  ⟨[("DICT_5X5_100", CvAttr.intConst 4), ("DICT_5X5_250", CvAttr.intConst 6)]⟩

/-- The declared parameter defaults of `aruco_node.py` (lines 52-67). -/
def pBase : Params :=
  { marker_size := 0.0625
    aruco_dictionary_id := "DICT_5X5_250"
    camera_frame := ""
    dictionary_bits := -1
    dictionary_size := -1
    dictionary_seed := 0
    do_corner_refinement := false
    publish_tf := false
    publish_charuco_pose := false
    charuco_square_x := 7
    charuco_square_y := 5
    charuco_square_length := 0.1
    corner_refinement_method := "CORNER_REFINE_NONE" }

/-- Parameters naming a dictionary that `cv2.aruco` does not have. -/
def pBad : Params := { pBase with aruco_dictionary_id := "DICT_BOGUS" }

/-- Parameters with distinct charuco board extents and board-pose output on. -/
def pBoard : Params :=
  { pBase with charuco_square_x := 7, charuco_square_y := 5,
               publish_charuco_pose := true }

/-- Parameters with transform broadcasting on and `camera_frame` unset. -/
def pTf : Params := { pBase with publish_tf := true, camera_frame := "" }

/-- A sample calibration message. -/
def infoEx : CameraInfo :=
  { header := ⟨"camera_link", 0⟩
    k := [600, 0, 320, 0, 600, 240, 0, 0, 1]
    d := [0, 0, 0, 0, 0] }

/-- A sample rotation-vector-to-quaternion conversion. -/
def qConst : Vec3 → Quat := fun _ => ⟨0, 0, 0, 1⟩

/-- Library behavior for a frame with one detected marker (id 42). -/
def extOne : Extern :=
  { marker_ids := some [42]
    rvecs := [⟨1, 2, 3⟩]
    tvecs := [⟨4, 5, 6⟩]
    quatOfRvec := qConst
    charuco_n_corners := 0
    charuco_success := false
    charuco_rvec := ⟨0, 0, 0⟩
    charuco_tvec := ⟨0, 0, 0⟩ }

/-- Library behavior for a frame with no detected markers. -/
def extNone : Extern := { extOne with marker_ids := none }

/-- A node state that has already received `infoEx`. -/
def sReady : NodeState :=
  { marker_size := 0.0625
    camera_frame := "cam"
    aruco_dictionary := ArucoDict.predefined 6
    cornerRefinementMethod := 0
    publish_tf := false
    publish_charuco_pose := false
    charuco_square_x := 7
    charuco_square_y := 7
    charuco_square_length := 0.1
    info_msg := some infoEx
    intrinsic_mat := some (reshape3x3 infoEx.k)
    distortion := some infoEx.d
    info_sub_alive := false }

/-- A freshly constructed node state: no calibration received yet. -/
def sNoInfo : NodeState :=
  { sReady with
    info_msg := none
    intrinsic_mat := none
    distortion := none
    info_sub_alive := true }

/-- The `ArucoMarkers` message the node publishes for `sReady` / `extOne`. -/
def mOne : ArucoMarkers :=
  { header := ⟨"cam", 0⟩
    marker_ids := [42]
    poses := [{ position := ⟨4, 5, 6⟩, orientation := ⟨0, 0, 0, 1⟩ }] }

/-- Board-generator arguments at their declared defaults (lines 17-50). -/
def argsBoard : BoardArgs :=
  { square_x := 7
    square_y := 5
    square_length := 0.1
    marker_length := 0.08
    path := "./checkerboard.tiff"
    out_x := none
    out_y := none
    dictionary := "DICT_5X5_250" }

/-- Modelled from the spec wording of the resolution fallback: the output
resolution the claim says the board generator uses, given the option value
and the square count in that direction. -/
def claimedResolution (given : Option Int) (squares : Int) : Int :=
  match given with
  | none => 300 * squares
  | some n => if n = 0 then 300 * squares else n

/-- Board-generator arguments with `--out-x 0` and `--out-y 400`. -/
def argsRes : BoardArgs := { argsBoard with out_x := some 0, out_y := some 400 }

/-! Helper lemmas about the embedding. -/

/-- The charuco phase never changes what was published on `aruco_poses`. -/
theorem charucoPhase_poses (s : NodeState) (stamp : Nat) (ext : Extern)
    (base : CallbackOutput) :
    (charucoPhase s stamp ext base).poses_published = base.poses_published := by
  simp only [charucoPhase]
  split_ifs <;> rfl

/-- The charuco phase never changes what was published on `aruco_markers`. -/
theorem charucoPhase_markers (s : NodeState) (stamp : Nat) (ext : Extern)
    (base : CallbackOutput) :
    (charucoPhase s stamp ext base).markers_published = base.markers_published := by
  simp only [charucoPhase]
  split_ifs <;> rfl

/-- The charuco phase adds no log lines. -/
theorem charucoPhase_logs (s : NodeState) (stamp : Nat) (ext : Extern)
    (base : CallbackOutput) :
    (charucoPhase s stamp ext base).logs = base.logs := by
  simp only [charucoPhase]
  split_ifs <;> rfl

/-- A successful marker loop yields as many poses as marker ids. -/
theorem markerLoop_ok_lengths (ptf : Bool) (cf : String) (stamp : Nat)
    (q : Vec3 → Quat) :
    ∀ (ids : List Int) (rvecs tvecs : List Vec3)
      (ps : List Pose) (ms : List Int) (ts : List TransformStamped),
      markerLoop ptf cf stamp q ids rvecs tvecs = Except.ok (ps, ms, ts) →
      ps.length = ms.length := by
  intro ids
  induction ids with
  | nil =>
    intro rvecs tvecs ps ms ts h
    cases rvecs <;> cases tvecs <;>
      · simp only [markerLoop, Except.ok.injEq, Prod.mk.injEq] at h
        obtain ⟨h1, h2, _⟩ := h
        simp [← h1, ← h2]
  | cons mid ids ih =>
    intro rvecs tvecs ps ms ts h
    cases rvecs with
    | nil =>
      simp only [markerLoop, Except.ok.injEq, Prod.mk.injEq] at h
      obtain ⟨h1, h2, _⟩ := h
      simp [← h1, ← h2]
    | cons rv rvs =>
      cases tvecs with
      | nil =>
        simp only [markerLoop, Except.ok.injEq, Prod.mk.injEq] at h
        obtain ⟨h1, h2, _⟩ := h
        simp [← h1, ← h2]
      | cons tv tvs =>
        cases ptf with
        | true =>
          by_cases hc : cf = ""
          · simp [markerLoop, hc] at h
          · simp only [markerLoop, hc, ne_eq, not_false_iff, if_true,
              reduceIte] at h
            cases hrec : markerLoop true cf stamp q ids rvs tvs with
            | ok r =>
              obtain ⟨ps', ms', ts'⟩ := r
              rw [hrec] at h
              simp only [Except.ok.injEq, Prod.mk.injEq] at h
              obtain ⟨h1, h2, _⟩ := h
              have := ih rvs tvs ps' ms' ts' hrec
              simp [← h1, ← h2, this]
            | error e =>
              rw [hrec] at h
              simp at h
        | false =>
          simp only [markerLoop, Bool.false_eq_true, if_false, reduceIte] at h
          cases hrec : markerLoop false cf stamp q ids rvs tvs with
          | ok r =>
            obtain ⟨ps', ms', ts'⟩ := r
            rw [hrec] at h
            simp only [Except.ok.injEq, Prod.mk.injEq] at h
            obtain ⟨h1, h2, _⟩ := h
            have := ih rvs tvs ps' ms' ts' hrec
            simp [← h1, ← h2, this]
          | error e =>
            rw [hrec] at h
            simp at h

/-- Content of a successful marker loop, under the library contract that the
pose arrays have the same length as the id array: the output ids are exactly
the detected ids, and the `i`-th pose is built from `rvecs[i]`/`tvecs[i]`. -/
theorem markerLoop_ok_spec (ptf : Bool) (cf : String) (stamp : Nat)
    (q : Vec3 → Quat) :
    ∀ (ids : List Int) (rvecs tvecs : List Vec3)
      (ps : List Pose) (ms : List Int) (ts : List TransformStamped),
      markerLoop ptf cf stamp q ids rvecs tvecs = Except.ok (ps, ms, ts) →
      rvecs.length = ids.length → tvecs.length = ids.length →
      ms = ids ∧ ps.length = ids.length ∧
      ∀ i, i < ids.length →
        ps.getD i default =
          mkPose q (rvecs.getD i default) (tvecs.getD i default) := by
  intro ids
  induction ids with
  | nil =>
    intro rvecs tvecs ps ms ts h hr ht
    cases rvecs with
    | cons rv rvs => simp at hr
    | nil =>
      cases tvecs with
      | cons tv tvs => simp at ht
      | nil =>
        simp only [markerLoop, Except.ok.injEq, Prod.mk.injEq] at h
        obtain ⟨h1, h2, _⟩ := h
        simp [← h1, ← h2]
  | cons mid ids ih =>
    intro rvecs tvecs ps ms ts h hr ht
    cases rvecs with
    | nil => simp at hr
    | cons rv rvs =>
      cases tvecs with
      | nil => simp at ht
      | cons tv tvs =>
        have hr' : rvs.length = ids.length := by simpa using hr
        have ht' : tvs.length = ids.length := by simpa using ht
        cases ptf with
        | true =>
          by_cases hc : cf = ""
          · simp [markerLoop, hc] at h
          · simp only [markerLoop, hc, ne_eq, not_false_iff, if_true,
              reduceIte] at h
            cases hrec : markerLoop true cf stamp q ids rvs tvs with
            | ok r =>
              obtain ⟨ps', ms', ts'⟩ := r
              rw [hrec] at h
              simp only [Except.ok.injEq, Prod.mk.injEq] at h
              obtain ⟨h1, h2, _⟩ := h
              obtain ⟨hms, hlen, hpt⟩ := ih rvs tvs ps' ms' ts' hrec hr' ht'
              subst h1 h2
              refine ⟨by simp [hms], by simp [hlen], ?_⟩
              intro i hi
              cases i with
              | zero => simp
              | succ n =>
                simp only [List.getD_cons_succ]
                exact hpt n (by simpa using Nat.lt_of_succ_lt_succ hi)
            | error e =>
              rw [hrec] at h
              simp at h
        | false =>
          simp only [markerLoop, Bool.false_eq_true, if_false, reduceIte] at h
          cases hrec : markerLoop false cf stamp q ids rvs tvs with
          | ok r =>
            obtain ⟨ps', ms', ts'⟩ := r
            rw [hrec] at h
            simp only [Except.ok.injEq, Prod.mk.injEq] at h
            obtain ⟨h1, h2, _⟩ := h
            obtain ⟨hms, hlen, hpt⟩ := ih rvs tvs ps' ms' ts' hrec hr' ht'
            subst h1 h2
            refine ⟨by simp [hms], by simp [hlen], ?_⟩
            intro i hi
            cases i with
            | zero => simp
            | succ n =>
              simp only [List.getD_cons_succ]
              exact hpt n (by simpa using Nat.lt_of_succ_lt_succ hi)
          | error e =>
            rw [hrec] at h
            simp at h

/-- When the marker loop completes, `image_callback` publishes the loop
output on both topics (the charuco phase does not touch those fields). -/
theorem image_callback_ok_published (s : NodeState) (stamp : Nat) (ext : Extern)
    (info : CameraInfo) (ids : List Int) (ps : List Pose) (ms : List Int)
    (ts : List TransformStamped)
    (hinfo : s.info_msg = some info) (hids : ext.marker_ids = some ids)
    (hloop : markerLoop s.publish_tf s.camera_frame stamp ext.quatOfRvec ids
        ext.rvecs ext.tvecs = Except.ok (ps, ms, ts)) :
    (ArucoNode.image_callback s stamp ext).poses_published =
      some { header := ⟨s.camera_frame, stamp⟩, poses := ps } ∧
    (ArucoNode.image_callback s stamp ext).markers_published =
      some { header := ⟨s.camera_frame, stamp⟩, marker_ids := ms,
             poses := ps } := by
  constructor <;>
    simp only [ArucoNode.image_callback, hinfo, hids, hloop,
      charucoPhase_poses, charucoPhase_markers]

/-- When the marker loop raises, `image_callback` lets the exception escape
after the transforms already broadcast, publishing nothing. -/
theorem image_callback_loop_error (s : NodeState) (stamp : Nat) (ext : Extern)
    (info : CameraInfo) (ids : List Int) (e : PyError)
    (ts : List TransformStamped)
    (hinfo : s.info_msg = some info) (hids : ext.marker_ids = some ids)
    (hloop : markerLoop s.publish_tf s.camera_frame stamp ext.quatOfRvec ids
        ext.rvecs ext.tvecs = Except.error (e, ts)) :
    ArucoNode.image_callback s stamp ext =
      { logs := []
        poses_published := none
        markers_published := none
        board_published := none
        charuco_board := none
        transforms_sent := ts
        error := some e } := by
  simp only [ArucoNode.image_callback, hinfo, hids, hloop]

/-- Once the `CameraInfo` subscription is gone, no event changes the node
state: image callbacks assign no fields and info messages are no longer
delivered. -/
theorem run_frozen (es : List Event) (s : NodeState)
    (h : s.info_sub_alive = false) :
    ArucoNode.run s es = s := by
  induction es with
  | nil => rfl
  | cons e es ih =>
    cases e with
    | info msg =>
      simpa [ArucoNode.run, ArucoNode.step, h] using ih
    | image stamp ext =>
      simpa [ArucoNode.run, ArucoNode.step] using ih

/-! The claim theorems. -/

/-- C2: for every image received while no camera calibration has been cached,
the image callback logs the warning, publishes nothing on any topic, sends no
transforms, raises no exception, and leaves the node state unchanged. -/
theorem image_callback_drops_frame_without_info (s : NodeState) (stamp : Nat)
    (ext : Extern) (h : s.info_msg = none) :
    ArucoNode.step s (Event.image stamp ext) =
      (s, some { logs := ["No camera info has been received!"]
                 poses_published := none
                 markers_published := none
                 board_published := none
                 charuco_board := none
                 transforms_sent := []
                 error := none }) := by
  simp [ArucoNode.step, ArucoNode.image_callback, h]

/-- Witness for C2 at a concrete uncalibrated state and frame. -/
theorem image_callback_drops_frame_without_info_witness :
    sNoInfo.info_msg = none ∧
    ArucoNode.step sNoInfo (Event.image 0 extOne) =
      (sNoInfo, some { logs := ["No camera info has been received!"]
                       poses_published := none
                       markers_published := none
                       board_published := none
                       charuco_board := none
                       transforms_sent := []
                       error := none }) :=
  ⟨rfl, image_callback_drops_frame_without_info sNoInfo 0 extOne rfl⟩

/-- C9: when the detector returns no marker ids for a processed frame, the
callback publishes nothing at all — no PoseArray, no ArucoMarkers message, no
board pose, no transforms — and the state is unchanged. -/
theorem no_detection_publishes_nothing (s : NodeState) (stamp : Nat)
    (ext : Extern) (info : CameraInfo)
    (hinfo : s.info_msg = some info) (hdet : ext.marker_ids = none) :
    ArucoNode.step s (Event.image stamp ext) =
      (s, some { logs := []
                 poses_published := none
                 markers_published := none
                 board_published := none
                 charuco_board := none
                 transforms_sent := []
                 error := none }) := by
  simp [ArucoNode.step, ArucoNode.image_callback, hinfo, hdet]

/-- Witness for C9 at a concrete calibrated state and empty detection. -/
theorem no_detection_publishes_nothing_witness :
    sReady.info_msg = some infoEx ∧
    extNone.marker_ids = none ∧
    ArucoNode.step sReady (Event.image 0 extNone) =
      (sReady, some { logs := []
                      poses_published := none
                      markers_published := none
                      board_published := none
                      charuco_board := none
                      transforms_sent := []
                      error := none }) :=
  ⟨rfl, rfl, no_detection_publishes_nothing sReady 0 extNone infoEx rfl rfl⟩

/-- C4: the calibration topic is consumed exactly once — after the first
CameraInfo message the cached fields equal those derived from it, the
subscription is destroyed, and no later sequence of events ever modifies
them. -/
theorem calibration_consumed_once (s : NodeState) (m : CameraInfo)
    (es : List Event) :
    (ArucoNode.run (ArucoNode.info_callback s m) es).info_msg = some m ∧
    (ArucoNode.run (ArucoNode.info_callback s m) es).intrinsic_mat =
      some (reshape3x3 m.k) ∧
    (ArucoNode.run (ArucoNode.info_callback s m) es).distortion = some m.d ∧
    (ArucoNode.run (ArucoNode.info_callback s m) es).info_sub_alive = false := by
  rw [run_frozen es (ArucoNode.info_callback s m) rfl]
  exact ⟨rfl, rfl, rfl, rfl⟩

/-- C1: for every image callback in which the detector returns a non-empty
id set and the callback completes without raising, the published messages
copy the library output unchanged: the `i`-th pose position equals
`tvecs[i][0]` component-wise, its orientation equals the quaternion obtained
from `rvecs[i][0]` via the rotation-matrix-to-quaternion conversion, and the
`i`-th published marker id equals the library's `i`-th id. -/
theorem image_callback_copies_library_output
    (s : NodeState) (stamp : Nat) (ext : Extern) (info : CameraInfo)
    (ids : List Int)
    (hinfo : s.info_msg = some info)
    (hids : ext.marker_ids = some ids)
    (hne : ids ≠ [])
    (hr : ext.rvecs.length = ids.length)
    (ht : ext.tvecs.length = ids.length)
    (herr : (ArucoNode.image_callback s stamp ext).error = none) :
    ∃ pa m,
      (ArucoNode.image_callback s stamp ext).poses_published = some pa ∧
      (ArucoNode.image_callback s stamp ext).markers_published = some m ∧
      pa.poses.length = ids.length ∧
      m.marker_ids = ids ∧
      ∀ i, i < ids.length →
        (pa.poses.getD i default).position.x = (ext.tvecs.getD i default).x ∧
        (pa.poses.getD i default).position.y = (ext.tvecs.getD i default).y ∧
        (pa.poses.getD i default).position.z = (ext.tvecs.getD i default).z ∧
        (pa.poses.getD i default).orientation =
          ext.quatOfRvec (ext.rvecs.getD i default) := by
  cases hloop : markerLoop s.publish_tf s.camera_frame stamp ext.quatOfRvec
      ids ext.rvecs ext.tvecs with
  | error pr =>
    obtain ⟨e, ts⟩ := pr
    rw [image_callback_loop_error s stamp ext info ids e ts hinfo hids hloop]
      at herr
    simp at herr
  | ok r =>
    obtain ⟨ps, ms, ts⟩ := r
    obtain ⟨hpp, hmp⟩ :=
      image_callback_ok_published s stamp ext info ids ps ms ts hinfo hids hloop
    obtain ⟨hms, hlen, hpt⟩ :=
      markerLoop_ok_spec s.publish_tf s.camera_frame stamp ext.quatOfRvec
        ids ext.rvecs ext.tvecs ps ms ts hloop hr ht
    refine ⟨_, _, hpp, hmp, by simpa using hlen, by simpa using hms, ?_⟩
    intro i hi
    have hp := hpt i hi
    simp only [List.getD_eq_getElem?_getD] at hp ⊢
    rw [hp]
    simp [mkPose]

/-- Witness for C1 at a concrete frame with one marker of id 42. -/
theorem image_callback_copies_library_output_witness :
    sReady.info_msg = some infoEx ∧
    extOne.marker_ids = some [42] ∧
    ([42] : List Int) ≠ [] ∧
    extOne.rvecs.length = ([42] : List Int).length ∧
    extOne.tvecs.length = ([42] : List Int).length ∧
    (ArucoNode.image_callback sReady 0 extOne).error = none ∧
    (∃ pa m,
      (ArucoNode.image_callback sReady 0 extOne).poses_published = some pa ∧
      (ArucoNode.image_callback sReady 0 extOne).markers_published = some m ∧
      pa.poses.length = ([42] : List Int).length ∧
      m.marker_ids = [42] ∧
      ∀ i, i < ([42] : List Int).length →
        (pa.poses.getD i default).position.x = (extOne.tvecs.getD i default).x ∧
        (pa.poses.getD i default).position.y = (extOne.tvecs.getD i default).y ∧
        (pa.poses.getD i default).position.z = (extOne.tvecs.getD i default).z ∧
        (pa.poses.getD i default).orientation =
          extOne.quatOfRvec (extOne.rvecs.getD i default)) :=
  ⟨rfl, rfl, by decide, rfl, rfl, rfl,
   image_callback_copies_library_output sReady 0 extOne infoEx [42]
     rfl rfl (by decide) rfl rfl rfl⟩

/-- C8: every ArucoMarkers message the node publishes is internally
consistent and agrees with the simultaneously published PoseArray: its id
and pose lists have the same length, its pose list equals the PoseArray's
pose list element-wise, and (under the library length contract) its `i`-th
id is the library's `i`-th id next to the pose built from the library's
`i`-th vectors. -/
theorem arucoMarkers_internally_consistent (s : NodeState) (stamp : Nat)
    (ext : Extern) (m : ArucoMarkers)
    (hm : (ArucoNode.image_callback s stamp ext).markers_published = some m) :
    m.marker_ids.length = m.poses.length ∧
    (∃ pa, (ArucoNode.image_callback s stamp ext).poses_published = some pa ∧
      m.poses = pa.poses) ∧
    ∀ ids, ext.marker_ids = some ids →
      ext.rvecs.length = ids.length → ext.tvecs.length = ids.length →
      m.marker_ids = ids ∧
      ∀ i, i < ids.length →
        m.poses.getD i default =
          mkPose ext.quatOfRvec (ext.rvecs.getD i default)
            (ext.tvecs.getD i default) := by
  cases hinfo : s.info_msg with
  | none => simp [ArucoNode.image_callback, hinfo] at hm
  | some info =>
    cases hids : ext.marker_ids with
    | none => simp [ArucoNode.image_callback, hinfo, hids] at hm
    | some ids =>
      cases hloop : markerLoop s.publish_tf s.camera_frame stamp
          ext.quatOfRvec ids ext.rvecs ext.tvecs with
      | error pr =>
        obtain ⟨e, ts⟩ := pr
        rw [image_callback_loop_error s stamp ext info ids e ts hinfo hids
          hloop] at hm
        simp at hm
      | ok r =>
        obtain ⟨ps, ms, ts⟩ := r
        obtain ⟨hpp, hmp⟩ :=
          image_callback_ok_published s stamp ext info ids ps ms ts hinfo
            hids hloop
        rw [hmp] at hm
        injection hm with hm
        subst hm
        refine ⟨?_, ⟨_, hpp, rfl⟩, ?_⟩
        · exact (markerLoop_ok_lengths s.publish_tf s.camera_frame stamp
            ext.quatOfRvec ids ext.rvecs ext.tvecs ps ms ts hloop).symm
        · intro ids' hids' hr ht
          injection hids' with hids'
          subst hids'
          obtain ⟨hms, _, hpt⟩ :=
            markerLoop_ok_spec s.publish_tf s.camera_frame stamp
              ext.quatOfRvec ids ext.rvecs ext.tvecs ps ms ts hloop hr ht
          exact ⟨hms, hpt⟩

/-- Witness for C8 at a concrete frame with one marker of id 42. -/
theorem arucoMarkers_internally_consistent_witness :
    (ArucoNode.image_callback sReady 0 extOne).markers_published = some mOne ∧
    (mOne.marker_ids.length = mOne.poses.length ∧
     (∃ pa, (ArucoNode.image_callback sReady 0 extOne).poses_published =
        some pa ∧ mOne.poses = pa.poses) ∧
     ∀ ids, extOne.marker_ids = some ids →
       extOne.rvecs.length = ids.length → extOne.tvecs.length = ids.length →
       mOne.marker_ids = ids ∧
       ∀ i, i < ids.length →
         mOne.poses.getD i default =
           mkPose extOne.quatOfRvec (extOne.rvecs.getD i default)
             (extOne.tvecs.getD i default)) :=
  ⟨rfl, arucoMarkers_internally_consistent sReady 0 extOne mOne rfl⟩

/-- C3 counterexample: constructing the node with the nonexistent dictionary
name `DICT_BOGUS` logs the two error lines, but then the constructor raises
`UnboundLocalError` (line 93 uses `dictionary_id`, which was never bound):
the exception escapes, contradicting the claim that construction continues
with the error only reported via the log. -/
theorem init_bad_dictionary_raises :
    (ArucoNode.init envStd pBad).logs =
      ["bad aruco_dictionary_id: DICT_BOGUS",
       "valid options: DICT_5X5_100\nDICT_5X5_250"] ∧
    (ArucoNode.init envStd pBad).result =
      Except.error (PyError.unboundLocalError "dictionary_id") :=
  ⟨rfl, rfl⟩

/-- C3 (amended): when the configured dictionary name is neither `CUSTOM` nor
an attribute of the vision library module, node construction logs the invalid
name and the list of valid options, and then fails: an unbound-local error
escapes the constructor. -/
theorem init_bad_dictionary_logs_then_raises (env : CvEnv) (p : Params)
    (hname : p.aruco_dictionary_id ≠ "CUSTOM")
    (hmissing : env.getattr p.aruco_dictionary_id = none) :
    (ArucoNode.init env p).logs =
      ["bad aruco_dictionary_id: " ++ p.aruco_dictionary_id,
       "valid options: " ++ String.intercalate "\n" env.dictOptions] ∧
    (ArucoNode.init env p).result =
      Except.error (PyError.unboundLocalError "dictionary_id") := by
  have hgs : p.getString "aruco_dictionary_id" = p.aruco_dictionary_id := rfl
  rw [← hgs] at hname hmissing
  simp only [ArucoNode.init, hname, hmissing, if_true, ne_eq,
    not_false_iff, reduceIte]
  exact ⟨by rw [hgs], rfl⟩

/-- Witness for the amended C3 at the concrete bad name `DICT_BOGUS`. -/
theorem init_bad_dictionary_logs_then_raises_witness :
    pBad.aruco_dictionary_id ≠ "CUSTOM" ∧
    envStd.getattr pBad.aruco_dictionary_id = none ∧
    ((ArucoNode.init envStd pBad).logs =
      ["bad aruco_dictionary_id: " ++ pBad.aruco_dictionary_id,
       "valid options: " ++ String.intercalate "\n" envStd.dictOptions] ∧
     (ArucoNode.init envStd pBad).result =
      Except.error (PyError.unboundLocalError "dictionary_id")) :=
  ⟨by decide, rfl,
   init_bad_dictionary_logs_then_raises envStd pBad (by decide) rfl⟩

/-- C5: with 7 squares configured in X and 5 in Y, the constructor stores the
`charuco_square_x` parameter into both extent fields (lines 154-160), so the
board handed to `CharucoBoard_create` has `squaresY = 7` instead of the
configured 5 — the code contradicts the configured board geometry. -/
theorem charuco_board_y_uses_x_parameter :
    pBoard.charuco_square_x = 7 ∧
    pBoard.charuco_square_y = 5 ∧
    (ArucoNode.init envStd pBoard).result.map
        (fun s => s.charuco_square_y) = Except.ok 7 ∧
    (ArucoNode.init envStd pBoard).result.map
        (fun s =>
          (ArucoNode.image_callback (ArucoNode.info_callback s infoEx) 0
              extOne).charuco_board.map CharucoBoard.squaresY) =
      Except.ok (some 7) :=
  ⟨rfl, rfl, rfl, rfl⟩

/-- C7: with `publish_tf` set and `camera_frame` unset (the empty string), a
calibrated frame with one detected marker makes the callback raise
`AttributeError` — lines 243-244 read `self.info.msg`, but the node has no
`info` attribute — so no transform is broadcast and the frame's messages are
never published, contradicting the claim for the unset camera frame. -/
theorem publish_tf_crashes_without_camera_frame :
    pTf.publish_tf = true ∧ pTf.camera_frame = "" ∧
    (ArucoNode.init envStd pTf).result.map
        (fun s =>
          ArucoNode.image_callback (ArucoNode.info_callback s infoEx) 0
            extOne) =
      Except.ok
        { logs := []
          poses_published := none
          markers_published := none
          board_published := none
          charuco_board := none
          transforms_sent := []
          error := some (PyError.attributeError "info") } :=
  ⟨rfl, rfl, rfl⟩

/-- C6 counterexample: running the custom-dictionary generator for one marker
whose image write fails prints nothing at all — the failing write is silent,
contradicting the claim that in both generator scripts every image-write
failure is reported on the console. -/
theorem dictionary_generator_silent_write_failure :
    (aruco_generate_custom_dictionary_main (fun _ => false)
        { size := 200, num := 1, bits := 6, seed := 0 }).writes =
      [("marker_0000.png", false)] ∧
    (aruco_generate_custom_dictionary_main (fun _ => false)
        { size := 200, num := 1, bits := 6, seed := 0 }).printed = [] :=
  ⟨rfl, rfl⟩

/-- C6 (amended): in the ChArUco board generator, every image-write failure
is reported on the console before the process ends; the custom dictionary
generator ignores the booleans `imwrite` returns, so its write failures are
silent. -/
theorem board_generator_reports_write_failure (env : CvEnv)
    (abspath : String → String) (args : BoardArgs) (v : Int)
    (hdict : env.getattr args.dictionary = some (CvAttr.intConst v)) :
    (charuco_generate_board_main env abspath false args).printed =
      ["Failed to write checkerboard to " ++ abspath args.path] := by
  simp [charuco_generate_board_main, hdict]

/-- Witness for the amended C6 at the default board-generator arguments. -/
theorem board_generator_reports_write_failure_witness :
    envStd.getattr argsBoard.dictionary = some (CvAttr.intConst 6) ∧
    (charuco_generate_board_main envStd id false argsBoard).printed =
      ["Failed to write checkerboard to " ++ id argsBoard.path] :=
  ⟨rfl, board_generator_reports_write_failure envStd id argsBoard 6 rfl⟩

/-- `args.out_x or 300 * args.square_x` computes exactly the fallback the
claim describes. -/
theorem pyOrInt_eq_claimedResolution (o : Option Int) (d : Int) :
    pyOrInt o (300 * d) = claimedResolution o d := by
  cases o <;> rfl

/-- C10: the resolution handed to `board.draw` falls back to 300 pixels per
chessboard square: when `--out-x` is omitted or 0 the used X resolution is
`300 * square_x` and otherwise the given value, and likewise in Y. -/
theorem board_resolution_fallback (env : CvEnv) (abspath : String → String)
    (writeOk : Bool) (args : BoardArgs) (v : Int)
    (hdict : env.getattr args.dictionary = some (CvAttr.intConst v)) :
    (charuco_generate_board_main env abspath writeOk args).drawn =
      some (CharucoBoard_create args.square_x args.square_y
              args.square_length args.marker_length (ArucoDict.predefined v),
            claimedResolution args.out_x args.square_x,
            claimedResolution args.out_y args.square_y) := by
  simp only [charuco_generate_board_main, hdict,
    pyOrInt_eq_claimedResolution]

/-- Witness for C10 with `--out-x 0` (falls back to 2100) and
`--out-y 400` (used unchanged). -/
theorem board_resolution_fallback_witness :
    envStd.getattr argsRes.dictionary = some (CvAttr.intConst 6) ∧
    (charuco_generate_board_main envStd id true argsRes).drawn =
      some (CharucoBoard_create argsRes.square_x argsRes.square_y
              argsRes.square_length argsRes.marker_length
              (ArucoDict.predefined 6),
            claimedResolution argsRes.out_x argsRes.square_x,
            claimedResolution argsRes.out_y argsRes.square_y) ∧
    claimedResolution argsRes.out_x argsRes.square_x = 2100 ∧
    claimedResolution argsRes.out_y argsRes.square_y = 400 :=
  ⟨rfl, board_resolution_fallback envStd id true argsRes 6 rfl, rfl, rfl⟩

end Ros2Aruco
